import Mathlib

/-!
# RMT Revenue Performance Analysis — verified model of the analysis pipeline

A shallow embedding of the statistical analysis pipeline of the
RMT-Revenue-Performance-Analysis repository, together with theorems about it.

The primary implementation embedded here is the `HealthcareAnalyzer` class of
the statistical analysis engine (the larger of the two analyzer versions in the
repository, phases 1–7: data extraction/cleaning, weekly aggregation, feature
engineering, chronological train/test split with training-only correlations,
model development, model evaluation/selection and performance classification).
The smaller near-duplicate variant `src/js/analyzer.js` is embedded separately
where it differs (its `cleanExcelData` extraction and its selection rule).

JavaScript numbers are modelled as exact rationals (`ℚ`); spreadsheet cell
values as a small inductive type `Cell` covering the shapes the pipeline
actually distinguishes (null/undefined, string, number).  `x || 0` applied to a
number is the identity except at `0`, where it is again `0`, so it is dropped;
`x || y` with `y ≠ 0` is kept as `jsOr`.  Fallible stages return `Except`.
-/

namespace RMT

/-- A raw spreadsheet cell value, as delivered by `sheet_to_json`.
`null` covers both JavaScript `null` and `undefined` (including out-of-range
row access). -/
inductive Cell where
  | null : Cell
  | str : String → Cell
  | num : ℚ → Cell
deriving DecidableEq

/-- JavaScript truthiness of a cell value (`!x` is `!truthy x`):
`null`/`undefined`, the empty string and `0` are falsy. -/
def Cell.truthy : Cell → Bool
  | .null => false
  | .str s => s ≠ ""
  | .num q => q ≠ 0

/-- The carry-forward update guard `x !== null && x !== undefined && x !== ''`.
Note a numeric `0` passes this test (it is not `''`) although it is falsy. -/
def Cell.notEmpty : Cell → Bool
  | .null => false
  | .str s => s ≠ ""
  | .num _ => true

/-- JavaScript `x || d` on numbers: `d` when `x` is `0`, else `x`. -/
def jsOr (x d : ℚ) : ℚ := if x = 0 then d else x

/-- Truncation toward zero, the effect of `parseInt` on a (decimal) number. -/
def jsTrunc (q : ℚ) : ℚ := if q < 0 then (⌈q⌉ : ℚ) else (⌊q⌋ : ℚ)

/-- Digits to the natural number they denote (most significant first). -/
def digitsToNat (cs : List Char) : ℕ :=
  cs.foldl (fun n c => 10 * n + (c.toNat - '0'.toNat)) 0

/-- Whitespace skipped by `parseFloat` / `parseInt`. -/
def isJsSpace (c : Char) : Bool :=
  c = ' ' || c = '\t' || c = '\n' || c = '\r'

/-- The numeric prefix accepted by JavaScript `parseFloat` on a character list:
optional whitespace, optional sign, digits with an optional fraction part and
an optional exponent part (the exponent is ignored when it has no digits, as in
`parseFloat "1e"`).  Returns `none` when no digit is found (`NaN`).
`Infinity` literals and hexadecimal forms are not modelled; no cell the
pipeline consumes uses them. -/
def parseFloatChars (cs : List Char) : Option ℚ :=
  let cs := cs.dropWhile isJsSpace
  let (sign, cs) : ℚ × List Char :=
    match cs with
    | '-' :: rest => (-1, rest)
    | '+' :: rest => (1, rest)
    | _ => (1, cs)
  let intDigits := cs.takeWhile Char.isDigit
  let cs := cs.dropWhile Char.isDigit
  let (fracDigits, cs) : List Char × List Char :=
    match cs with
    | '.' :: rest => (rest.takeWhile Char.isDigit, rest.dropWhile Char.isDigit)
    | _ => ([], cs)
  if intDigits.isEmpty ∧ fracDigits.isEmpty then none
  else
    let mantissa : ℚ :=
      (digitsToNat intDigits : ℚ) + (digitsToNat fracDigits : ℚ) / (10 ^ fracDigits.length : ℚ)
    let expDigits : Option (Bool × List Char) :=
      match cs with
      | 'e' :: '-' :: ds => some (true, ds.takeWhile Char.isDigit)
      | 'E' :: '-' :: ds => some (true, ds.takeWhile Char.isDigit)
      | 'e' :: '+' :: ds => some (false, ds.takeWhile Char.isDigit)
      | 'E' :: '+' :: ds => some (false, ds.takeWhile Char.isDigit)
      | 'e' :: ds => some (false, ds.takeWhile Char.isDigit)
      | 'E' :: ds => some (false, ds.takeWhile Char.isDigit)
      | _ => none
    let scale : ℚ :=
      match expDigits with
      | some (neg, ds) =>
        if ds.isEmpty then 1
        else if neg then 1 / (10 ^ digitsToNat ds : ℚ) else (10 ^ digitsToNat ds : ℚ)
      | none => 1
    some (sign * mantissa * scale)

/-- JavaScript `parseFloat` on a string, `none` for `NaN`. -/
def jsParseFloat (s : String) : Option ℚ := parseFloatChars s.toList

/-- The integer prefix accepted by JavaScript `parseInt` (radix 10):
optional whitespace, optional sign, at least one digit.  `none` for `NaN`. -/
def parseIntChars (cs : List Char) : Option ℚ :=
  let cs := cs.dropWhile isJsSpace
  let (sign, cs) : ℚ × List Char :=
    match cs with
    | '-' :: rest => (-1, rest)
    | '+' :: rest => (1, rest)
    | _ => (1, cs)
  let ds := cs.takeWhile Char.isDigit
  if ds.isEmpty then none else some (sign * (digitsToNat ds : ℚ))

/-- JavaScript `parseInt` (radix 10) on a string, `none` for `NaN`. -/
def jsParseInt (s : String) : Option ℚ := parseIntChars s.toList

/-- Remove the first occurrence of a character: `s.replace('%','')` with a
string pattern replaces only the first occurrence in JavaScript. -/
def removeFirstChar (c : Char) : List Char → List Char
  | [] => []
  | x :: xs => if x = c then xs else x :: removeFirstChar c xs

/-- `parseNumeric` of the statistical analysis engine: `null`/`undefined`/`''`
↦ `0`; a string containing `%` has its first `%` removed, is parsed and
divided by 100; any other string has all `$` and `,` stripped and is parsed;
an unparseable string ↦ `0`; a number is returned unchanged. -/
def parseNumeric : Cell → ℚ
  | .null => 0
  | .str s =>
    if s = "" then 0
    else if s.toList.contains '%' then
      match parseFloatChars (removeFirstChar '%' s.toList) with
      | some q => q / 100
      | none => 0
    else
      match parseFloatChars (s.toList.filter fun c => ¬(c = '$' ∨ c = ',')) with
      | some q => q
      | none => 0
  | .num q => q

/-- `parseInteger` of the statistical analysis engine (`parseInt`, `NaN ↦ 0`).
On a number cell `parseInt` truncates toward zero. -/
def parseInteger : Cell → ℚ
  | .null => 0
  | .str s => if s = "" then 0 else (jsParseInt s).getD 0
  | .num q => jsTrunc q

/-- Boolean substring test (`String.includes`). -/
def hasSub : List Char → List Char → Bool
  | hay, pat =>
    match hay with
    | [] => pat.isEmpty
    | _ :: t => pat.isPrefixOf hay || hasSub t pat

/-- `s.includes(sub)` on character lists. -/
def strIncludes (s sub : List Char) : Bool := hasSub s sub

/-- `toLowerCase` on character lists. -/
def toLowerChars (cs : List Char) : List Char := cs.map Char.toLower

/-- `trim` on character lists (whitespace stripped from both ends). -/
def trimChars (cs : List Char) : List Char :=
  ((cs.dropWhile isJsSpace).reverse.dropWhile isJsSpace).reverse

/-- The resolved column-index map: header-keyword matching first, fixed
positional fallbacks (columns E–L) second. -/
structure ColumnMap where
  totalPayments : ℕ
  chargeAmount : ℕ
  collectionPct : ℕ
  visitCount : ℕ
  visitsWithLabCount : ℕ
  avgPayment : ℕ
  avgEMWeight : ℕ
  paymentsPct : ℕ
deriving DecidableEq

/-- Column assignments collected while scanning the header row. -/
structure PartialColumnMap where
  totalPayments : Option ℕ := none
  chargeAmount : Option ℕ := none
  collectionPct : Option ℕ := none
  visitCount : Option ℕ := none
  visitsWithLabCount : Option ℕ := none
  avgPayment : Option ℕ := none
  avgEMWeight : Option ℕ := none
  paymentsPct : Option ℕ := none
deriving DecidableEq

/-- One step of `createColumnMap`'s keyword chain, on the lowercased trimmed
header text `hl` found at index `i`. -/
def applyHeaderMatch (m : PartialColumnMap) (i : ℕ) (hl : List Char) : PartialColumnMap :=
  if strIncludes hl "payment".toList && strIncludes hl "expected".toList then
    { m with totalPayments := some i }
  else if strIncludes hl "charge".toList && strIncludes hl "amount".toList then
    { m with chargeAmount := some i }
  else if strIncludes hl "collection".toList && strIncludes hl "%".toList then
    { m with collectionPct := some i }
  else if strIncludes hl "visit".toList && strIncludes hl "count".toList &&
      !strIncludes hl "lab".toList then
    { m with visitCount := some i }
  else if strIncludes hl "lab".toList && strIncludes hl "count".toList then
    { m with visitsWithLabCount := some i }
  else if strIncludes hl "average".toList && strIncludes hl "payment".toList then
    { m with avgPayment := some i }
  else if strIncludes hl "weight".toList || strIncludes hl "e/m".toList then
    { m with avgEMWeight := some i }
  else if strIncludes hl "%".toList && strIncludes hl "total".toList then
    { m with paymentsPct := some i }
  else m

/-- The header scan (`headers.forEach`).  A falsy header cell (null, `''`,
`0`) is skipped; a truthy non-string header makes `header.toLowerCase()` throw
a `TypeError`, which the surrounding try/catch rethrows as a load failure. -/
def assignColumns (m : PartialColumnMap) (i : ℕ) : List Cell → Except String PartialColumnMap
  | [] => .ok m
  | c :: rest =>
    match c with
    | .null => assignColumns m (i + 1) rest
    | .num q =>
      if q = 0 then assignColumns m (i + 1) rest
      else .error "Failed to load data: header.toLowerCase is not a function"
    | .str s =>
      if s = "" then assignColumns m (i + 1) rest
      else assignColumns (applyHeaderMatch m i (trimChars (toLowerChars s.toList))) (i + 1) rest

/-- The fixed positional defaults (columns J, H, I, K, L, F, G, E) applied to
whatever the keyword scan did not match. -/
def colFinalize (m : PartialColumnMap) : ColumnMap :=
  { totalPayments := m.totalPayments.getD 9
    chargeAmount := m.chargeAmount.getD 7
    collectionPct := m.collectionPct.getD 8
    visitCount := m.visitCount.getD 10
    visitsWithLabCount := m.visitsWithLabCount.getD 11
    avgPayment := m.avgPayment.getD 5
    avgEMWeight := m.avgEMWeight.getD 6
    paymentsPct := m.paymentsPct.getD 4 }

/-- `createColumnMap`: keyword scan over the headers, then the fixed
positional defaults for anything unmatched. -/
def createColumnMap (headers : List Cell) : Except String ColumnMap := do
  let m ← assignColumns {} 0 headers
  pure (colFinalize m)

/-- One extracted billing record (one cleaned spreadsheet row).  The
hierarchical fields keep their raw cell values; numeric fields are parsed. -/
structure BillingRecord where
  year : Cell
  week : Cell
  payer : Cell
  emGroup : Cell
  paymentsPctOfTotal : ℚ
  avgPayment : ℚ
  avgEMWeight : ℚ
  chargeAmount : ℚ
  collectionPct : ℚ
  totalPayments : ℚ
  visitCount : ℚ
  visitsWithLabCount : ℚ
  pctVisitsWithLabs : ℚ
  paymentPerVisit : ℚ
deriving DecidableEq

/-- `row[i]`: out-of-range access yields `undefined`. -/
def rowGet (row : List Cell) (i : ℕ) : Cell := row.getD i .null

/-- Build one record from a data row under the resolved column map, with the
carried-forward `year`, `week`, `payer` and the derived per-row features. -/
def makeRecord (cmap : ColumnMap) (y w p : Cell) (row : List Cell) : BillingRecord :=
  let visitCount := parseInteger (rowGet row cmap.visitCount)
  let visitsWithLabCount := parseInteger (rowGet row cmap.visitsWithLabCount)
  let totalPayments := parseNumeric (rowGet row cmap.totalPayments)
  { year := y
    week := w
    payer := p
    emGroup := rowGet row 3
    paymentsPctOfTotal := parseNumeric (rowGet row cmap.paymentsPct)
    avgPayment := parseNumeric (rowGet row cmap.avgPayment)
    avgEMWeight := parseNumeric (rowGet row cmap.avgEMWeight)
    chargeAmount := parseNumeric (rowGet row cmap.chargeAmount)
    collectionPct := parseNumeric (rowGet row cmap.collectionPct)
    totalPayments := totalPayments
    visitCount := visitCount
    visitsWithLabCount := visitsWithLabCount
    pctVisitsWithLabs := if 0 < visitCount then visitsWithLabCount / visitCount else 0
    paymentPerVisit := if 0 < visitCount then totalPayments / visitCount else 0 }

/-- `validateRecord` of the statistical analysis engine: truthy hierarchical
fields, non-negative payments/charges/visits, collection rate within
`[0, 5]` (up to 500% tolerated). -/
def validateRecord (r : BillingRecord) : Bool :=
  r.year.truthy && r.week.truthy && r.payer.truthy && r.emGroup.truthy
    && decide (0 ≤ r.totalPayments) && decide (0 ≤ r.chargeAmount)
    && decide (0 ≤ r.visitCount)
    && decide (0 ≤ r.collectionPct) && decide (r.collectionPct ≤ 5)

/-- The cleaning loop of the statistical analysis engine: carry-forward of
`year`/`week`/`payer` over merged cells, the skip of rows with missing
essential data, and the validation filter (invalid rows are dropped, the loop
continues). -/
def cleanLoop (cmap : ColumnMap) : List (List Cell) → Cell → Cell → Cell → List BillingRecord
  | [], _, _, _ => []
  | row :: rest, y, w, p =>
    let y := if (rowGet row 0).notEmpty then rowGet row 0 else y
    let w := if (rowGet row 1).notEmpty then rowGet row 1 else w
    let p := if (rowGet row 2).notEmpty then rowGet row 2 else p
    if y.truthy && w.truthy && p.truthy && (rowGet row 3).truthy then
      let r0 := makeRecord cmap y w p row
      if validateRecord r0 then r0 :: cleanLoop cmap rest y w p
      else cleanLoop cmap rest y w p
    else cleanLoop cmap rest y w p

/-- Extraction of the statistical analysis engine (`loadAndCleanData`, after
the workbook has been decoded into rows of cells).  On an empty table
`rawData[0]` is `undefined` and `createColumnMap` throws a `TypeError`, which
the surrounding try/catch rethrows; otherwise the column map is built from the
header row and the remaining rows are cleaned. -/
def loadCleanRows (raw : List (List Cell)) : Except String (List BillingRecord) := do
  match raw with
  | [] => .error "Failed to load data: headers is undefined"
  | headers :: dataRows =>
    let cmap ← createColumnMap headers
    pure (cleanLoop cmap dataRows .null .null .null)

/-- `parseNumber` of the `src/js/analyzer.js` variant: no `%`/`$`/`,`
handling, just `parseFloat` with `NaN ↦ 0`. -/
def parseNumber : Cell → ℚ
  | .null => 0
  | .str s => if s = "" then 0 else (jsParseFloat s).getD 0
  | .num q => q

/-- The cleaning loop of the `src/js/analyzer.js` variant (`cleanExcelData`):
fixed column positions, no record validation — every row that passes the
essential-data skip is kept. -/
def cleanLoopJs : List (List Cell) → Cell → Cell → Cell → List BillingRecord
  | [], _, _, _ => []
  | row :: rest, y, w, p =>
    let y := if (rowGet row 0).notEmpty then rowGet row 0 else y
    let w := if (rowGet row 1).notEmpty then rowGet row 1 else w
    let p := if (rowGet row 2).notEmpty then rowGet row 2 else p
    if y.truthy && w.truthy && p.truthy && (rowGet row 3).truthy then
      let visitCount := parseInteger (rowGet row 10)
      let visitsWithLabCount := parseInteger (rowGet row 11)
      let totalPayments := parseNumber (rowGet row 9)
      { year := y
        week := w
        payer := p
        emGroup := if (rowGet row 3).truthy then rowGet row 3 else .str "Unknown"
        paymentsPctOfTotal := parseNumber (rowGet row 4)
        avgPayment := parseNumber (rowGet row 5)
        avgEMWeight := parseNumber (rowGet row 6)
        chargeAmount := parseNumber (rowGet row 7)
        collectionPct := parseNumber (rowGet row 8)
        totalPayments := totalPayments
        visitCount := visitCount
        visitsWithLabCount := visitsWithLabCount
        pctVisitsWithLabs := if 0 < visitCount then visitsWithLabCount / visitCount else 0
        paymentPerVisit := if 0 < visitCount then totalPayments / visitCount else 0 }
        :: cleanLoopJs rest y w p
    else cleanLoopJs rest y w p

/-- `cleanExcelData` of the `src/js/analyzer.js` variant: an explicit error
for tables with fewer than 2 rows, then the (validation-free) cleaning loop
over the data rows. -/
def cleanExcelData (raw : List (List Cell)) : Except String (List BillingRecord) :=
  if raw.length < 2 then .error "Excel file appears to be empty or invalid"
  else .ok (cleanLoopJs (raw.drop 1) .null .null .null)

/-- `_.sumBy` over billing records (all summed fields are numbers, so the
`(val || 0)` coercion inside the source's summation is the identity). -/
def sumBy (recs : List BillingRecord) (f : BillingRecord → ℚ) : ℚ :=
  (recs.map f).sum

/-- Arithmetic mean of a list of numbers.  `_.mean []` is `NaN` in lodash; the
pipeline only takes means of lists it has checked (or assumed) nonempty, and
this model is applied under those guards, so the `0/0 = 0` of rational
division is never load-bearing. -/
def jsMean (l : List ℚ) : ℚ := l.sum / (l.length : ℚ)

/-- One aggregated week (one `(year, week)` group of billing records). -/
structure WeeklyAggregate where
  year : ℤ
  week : String
  weekKey : String
  totalPayments : ℚ
  totalChargeAmount : ℚ
  totalVisitCount : ℚ
  weightedAvgCollectionPct : ℚ
  avgPaymentPerVisit : ℚ
  pctVisitsWithLabs : ℚ
  bcbsCharges : ℚ
  bcbsVisits : ℚ
  bcbsCollectionPct : ℚ
  aetnaCharges : ℚ
  aetnaVisits : ℚ
  aetnaCollectionPct : ℚ
  selfPayCharges : ℚ
  selfPayVisits : ℚ
  selfPayCollectionPct : ℚ
  commercialCharges : ℚ
  commercialVisits : ℚ
  detailRecords : List BillingRecord
deriving DecidableEq

/-- The body of `aggregateByWeek` for one `(year, week)` group: sums of
payments/charges/visits/lab visits, the charge-weighted mean collection rate,
per-visit averages, and the per-payer sub-sums obtained by exact string match
on the payer code.  (The surrounding `groupBy` on the `year-week` key string
and the final chronological sort are not re-modelled here; the theorems range
over arbitrary groups.) -/
def aggregateGroup (year : ℤ) (week : String) (weekRecords : List BillingRecord) :
    WeeklyAggregate :=
  let totalPayments := sumBy weekRecords (·.totalPayments)
  let totalChargeAmount := sumBy weekRecords (·.chargeAmount)
  let totalVisitCount := sumBy weekRecords (·.visitCount)
  let totalVisitsWithLabs := sumBy weekRecords (·.visitsWithLabCount)
  let bcbsRecords := weekRecords.filter fun r => r.payer = Cell.str "2-BCBS"
  let aetnaRecords := weekRecords.filter fun r => r.payer = Cell.str "17-AETNA"
  let selfPayRecords := weekRecords.filter fun r => r.payer = Cell.str "1-SELF PAY"
  let commercialRecords := weekRecords.filter fun r => r.payer = Cell.str "5-COMMERCIAL"
  { year := year
    week := week
    weekKey := toString year ++ "-" ++ week
    totalPayments := totalPayments
    totalChargeAmount := totalChargeAmount
    totalVisitCount := totalVisitCount
    weightedAvgCollectionPct :=
      if 0 < totalChargeAmount then
        sumBy weekRecords (fun r => r.collectionPct * r.chargeAmount) / totalChargeAmount
      else 0
    avgPaymentPerVisit := if 0 < totalVisitCount then totalPayments / totalVisitCount else 0
    pctVisitsWithLabs := if 0 < totalVisitCount then totalVisitsWithLabs / totalVisitCount else 0
    bcbsCharges := sumBy bcbsRecords (·.chargeAmount)
    bcbsVisits := sumBy bcbsRecords (·.visitCount)
    bcbsCollectionPct :=
      if bcbsRecords.length ≠ 0 then jsMean (bcbsRecords.map (·.collectionPct)) else 0
    aetnaCharges := sumBy aetnaRecords (·.chargeAmount)
    aetnaVisits := sumBy aetnaRecords (·.visitCount)
    aetnaCollectionPct :=
      if aetnaRecords.length ≠ 0 then jsMean (aetnaRecords.map (·.collectionPct)) else 0
    selfPayCharges := sumBy selfPayRecords (·.chargeAmount)
    selfPayVisits := sumBy selfPayRecords (·.visitCount)
    selfPayCollectionPct :=
      if selfPayRecords.length ≠ 0 then jsMean (selfPayRecords.map (·.collectionPct)) else 0
    commercialCharges := sumBy commercialRecords (·.chargeAmount)
    commercialVisits := sumBy commercialRecords (·.visitCount)
    detailRecords := weekRecords }

/-- One engineered feature row (one week, aggregate plus derived ratios). -/
structure FeatureRow where
  weekKey : String
  year : ℤ
  week : String
  totalPayments : ℚ
  totalChargeAmount : ℚ
  totalVisitCount : ℚ
  weightedAvgCollectionPct : ℚ
  avgPaymentPerVisit : ℚ
  pctVisitsWithLabs : ℚ
  chargesPerVisit : ℚ
  collectionEfficiency : ℚ
  bcbsChargesPct : ℚ
  aetnaChargesPct : ℚ
  selfPayChargesPct : ℚ
  commercialChargesPct : ℚ
  highValuePayerPct : ℚ
  originalData : WeeklyAggregate
deriving DecidableEq

/-- `engineerFeatures` for one week: per-visit intensity and payer-mix
percentages, every division guarded (`0` when the denominator is not
positive). -/
def engineerFeature (week : WeeklyAggregate) : FeatureRow :=
  let chargesPerVisit :=
    if 0 < week.totalVisitCount then week.totalChargeAmount / week.totalVisitCount else 0
  let bcbsChargesPct :=
    if 0 < week.totalChargeAmount then week.bcbsCharges / week.totalChargeAmount else 0
  let aetnaChargesPct :=
    if 0 < week.totalChargeAmount then week.aetnaCharges / week.totalChargeAmount else 0
  let selfPayChargesPct :=
    if 0 < week.totalChargeAmount then week.selfPayCharges / week.totalChargeAmount else 0
  let commercialChargesPct :=
    if 0 < week.totalChargeAmount then week.commercialCharges / week.totalChargeAmount else 0
  { weekKey := week.weekKey
    year := week.year
    week := week.week
    totalPayments := week.totalPayments
    totalChargeAmount := week.totalChargeAmount
    totalVisitCount := week.totalVisitCount
    weightedAvgCollectionPct := week.weightedAvgCollectionPct
    avgPaymentPerVisit := week.avgPaymentPerVisit
    pctVisitsWithLabs := week.pctVisitsWithLabs
    chargesPerVisit := chargesPerVisit
    collectionEfficiency := week.weightedAvgCollectionPct
    bcbsChargesPct := bcbsChargesPct
    aetnaChargesPct := aetnaChargesPct
    selfPayChargesPct := selfPayChargesPct
    commercialChargesPct := commercialChargesPct
    highValuePayerPct := bcbsChargesPct + aetnaChargesPct
    originalData := week }

/-- `engineerFeatures` over the aggregated weeks. -/
def engineerFeatures (weeklyData : List WeeklyAggregate) : List FeatureRow :=
  weeklyData.map engineerFeature

/-- Lexicographic comparison of character lists by code point, the order
`localeCompare` (and lodash's string comparison) induces on the plain ASCII
week labels this pipeline sorts. -/
def charListLe : List Char → List Char → Bool
  | [], _ => true
  | _ :: _, [] => false
  | a :: as, b :: bs =>
    if a.toNat < b.toNat then true
    else if b.toNat < a.toNat then false
    else charListLe as bs

theorem charListLe_total : ∀ as bs, charListLe as bs = true ∨ charListLe bs as = true
  | [], _ => Or.inl rfl
  | _ :: _, [] => Or.inr rfl
  | a :: as, b :: bs => by
    rcases Nat.lt_trichotomy a.toNat b.toNat with h | h | h
    · left; simp [charListLe, h]
    · have h2 : ¬ a.toNat < b.toNat := by omega
      have h3 : ¬ b.toNat < a.toNat := by omega
      rcases charListLe_total as bs with ih | ih
      · left; simp [charListLe, h2, h3, ih]
      · right; simp [charListLe, h2, h3, ih, h]
    · right; simp [charListLe, h]

theorem charListLe_trans :
    ∀ as bs cs, charListLe as bs = true → charListLe bs cs = true →
      charListLe as cs = true
  | [], _, _, _, _ => rfl
  | _ :: _, [], _, hab, _ => by simp [charListLe] at hab
  | _ :: _, _ :: _, [], _, hbc => by simp [charListLe] at hbc
  | a :: as, b :: bs, c :: cs, hab, hbc => by
    rcases Nat.lt_trichotomy a.toNat c.toNat with h | h | h
    · simp [charListLe, h]
    · by_cases h1 : a.toNat < b.toNat
      · exfalso
        by_cases h2 : b.toNat < c.toNat
        · omega
        · by_cases h4 : c.toNat < b.toNat
          · simp [charListLe, h2, h4] at hbc
          · omega
      · by_cases h3 : b.toNat < a.toNat
        · exfalso; simp [charListLe, h1, h3] at hab
        · have hab2 : charListLe as bs = true := by
            simpa [charListLe, h1, h3] using hab
          have h2 : ¬ b.toNat < c.toNat := by omega
          have h4 : ¬ c.toNat < b.toNat := by omega
          have hbc2 : charListLe bs cs = true := by
            simpa [charListLe, h2, h4] using hbc
          have := charListLe_trans as bs cs hab2 hbc2
          simp [charListLe, h, this]
    · exfalso
      by_cases h1 : a.toNat < b.toNat <;> by_cases h2 : b.toNat < c.toNat <;>
        by_cases h3 : b.toNat < a.toNat <;> by_cases h4 : c.toNat < b.toNat <;>
        simp_all [charListLe] <;> omega

/-- Lexicographic string comparison (the effect of `a.localeCompare(b) ≤ 0`
on the ASCII labels in play). -/
def strLe (a b : String) : Bool := charListLe a.toList b.toList

/-- The sort key of `_.sortBy(features, ['year', 'week'])` (and of the
`a.year - b.year || a.week.localeCompare(b.week)` comparator): ascending year,
then lexicographic comparison of the week label. -/
def fLe (a b : FeatureRow) : Prop :=
  a.year < b.year ∨ (a.year = b.year ∧ strLe a.week b.week = true)

instance : DecidableRel fLe := fun a b => by
  unfold fLe; infer_instance

instance : IsTotal FeatureRow fLe where
  total a b := by
    rcases lt_trichotomy a.year b.year with h | h | h
    · exact Or.inl (Or.inl h)
    · rcases charListLe_total a.week.toList b.week.toList with hw | hw
      · exact Or.inl (Or.inr ⟨h, hw⟩)
      · exact Or.inr (Or.inr ⟨h.symm, hw⟩)
    · exact Or.inr (Or.inl h)

instance : IsTrans FeatureRow fLe where
  trans a b c hab hbc := by
    rcases hab with h1 | ⟨h1, hw1⟩
    · rcases hbc with h2 | ⟨h2, _⟩
      · exact Or.inl (h1.trans h2)
      · exact Or.inl (h2 ▸ h1)
    · rcases hbc with h2 | ⟨h2, hw2⟩
      · exact Or.inl (h1 ▸ h2)
      · exact Or.inr ⟨h1.trans h2, charListLe_trans _ _ _ hw1 hw2⟩

/-- Chronological (stable) sort of the feature rows. -/
def sortFeatures (features : List FeatureRow) : List FeatureRow :=
  List.insertionSort fLe features

/-- The default `testSize` (0.2). -/
def defaultTestSize : ℚ := 1 / 5

/-- `trainSize = Math.floor(n * (1 - testSize))`. -/
def trainSizeOf (n : ℕ) (testSize : ℚ) : ℕ :=
  (⌊(n : ℚ) * (1 - testSize)⌋).toNat

/-- The fixed feature list whose correlation with `totalPayments` is computed
on the training partition. -/
def correlationFeatures : List String :=
  ["totalChargeAmount", "totalVisitCount", "weightedAvgCollectionPct",
   "avgPaymentPerVisit", "bcbsChargesPct", "aetnaChargesPct",
   "highValuePayerPct", "chargesPerVisit"]

/-- Dynamic field access `f[feature]` for the correlation feature names
(an unknown key would yield `undefined`, coerced to `0` by `|| 0`). -/
def getFeature (f : FeatureRow) (name : String) : ℚ :=
  if name = "totalChargeAmount" then f.totalChargeAmount
  else if name = "totalVisitCount" then f.totalVisitCount
  else if name = "weightedAvgCollectionPct" then f.weightedAvgCollectionPct
  else if name = "avgPaymentPerVisit" then f.avgPaymentPerVisit
  else if name = "bcbsChargesPct" then f.bcbsChargesPct
  else if name = "aetnaChargesPct" then f.aetnaChargesPct
  else if name = "highValuePayerPct" then f.highValuePayerPct
  else if name = "chargesPerVisit" then f.chargesPerVisit
  else 0

/-- Pearson correlation as implemented by `calculateCorrelation`:
`r = (nΣxy − ΣxΣy) / sqrt((nΣx²−(Σx)²)(nΣy²−(Σy)²))`, `0` for mismatched or
empty inputs and for a zero denominator. -/
noncomputable def calculateCorrelation (x y : List ℚ) : ℝ :=
  if x.length ≠ y.length ∨ x.length = 0 then 0
  else
    let n : ℚ := x.length
    let sumX := x.sum
    let sumY := y.sum
    let sumXY := ((x.zip y).map fun p => p.1 * p.2).sum
    let sumX2 := (x.map fun a => a * a).sum
    let sumY2 := (y.map fun a => a * a).sum
    let numerator : ℚ := n * sumXY - sumX * sumY
    let radicand : ℚ := (n * sumX2 - sumX * sumX) * (n * sumY2 - sumY * sumY)
    if Real.sqrt (radicand : ℝ) = 0 then 0
    else (numerator : ℝ) / Real.sqrt (radicand : ℝ)

/-- The training-only correlation map, in the fixed feature order. -/
noncomputable def trainCorrelationsOf (trainData : List FeatureRow) : List (String × ℝ) :=
  correlationFeatures.map fun name =>
    (name,
      calculateCorrelation (trainData.map fun f => jsOr (getFeature f name) 0)
        (trainData.map (·.totalPayments)))

/-- The output of the split stage. -/
structure TrainTestSplit where
  trainData : List FeatureRow
  testData : List FeatureRow
  trainCorrelations : List (String × ℝ)

/-- `createTrainTestSplit`: chronological sort, hard cutoff at
`floor(n·(1−testSize))`, correlations computed on the training prefix only. -/
noncomputable def createTrainTestSplit (features : List FeatureRow) (testSize : ℚ) :
    TrainTestSplit :=
  let sortedFeatures := sortFeatures features
  let trainSize := trainSizeOf sortedFeatures.length testSize
  let trainData := sortedFeatures.take trainSize
  let testData := sortedFeatures.drop trainSize
  { trainData := trainData
    testData := testData
    trainCorrelations := trainCorrelationsOf trainData }

/-- The aggregate statistics captured from the training partition at fit
time. -/
structure TrainStats where
  avgCollectionRate : ℚ
  avgPaymentPerVisit : ℚ
  avgChargesPerVisit : ℚ
  avgBcbsPct : ℚ
  avgAetnaPct : ℚ
deriving DecidableEq

/-- The four models' test-set prediction arrays plus the training
statistics. -/
structure Models where
  model1Predictions : List ℚ
  model2Predictions : List ℚ
  model3Predictions : List ℚ
  model4Predictions : List ℚ
  trainStats : TrainStats
deriving DecidableEq

/-- `developModels`: training statistics (means over the training partition
only), then the four fixed heuristics applied to each test week.
Model 3's charge component reads `week.weightedAvgCollectionPct ||
avgCollectionRate`: the week's own collection rate with the training average
as fallback when the week's own rate is `0`.  Model 4 floors its payer
adjustment at `0.5`. -/
def developModels (trainData testData : List FeatureRow) : Models :=
  let avgCollectionRate := jsMean (trainData.map (·.weightedAvgCollectionPct))
  let avgPaymentPerVisit := jsMean (trainData.map (·.avgPaymentPerVisit))
  let avgChargesPerVisit := jsMean (trainData.map (·.chargesPerVisit))
  let avgBcbsPct := jsMean (trainData.map (·.bcbsChargesPct))
  let avgAetnaPct := jsMean (trainData.map (·.aetnaChargesPct))
  { model1Predictions := testData.map fun week => week.totalChargeAmount * avgCollectionRate
    model2Predictions := testData.map fun week => week.totalVisitCount * avgPaymentPerVisit
    model3Predictions := testData.map fun week =>
      week.totalChargeAmount * jsOr week.weightedAvgCollectionPct avgCollectionRate * (6 / 10)
        + week.totalVisitCount * avgPaymentPerVisit * (4 / 10)
    model4Predictions := testData.map fun week =>
      let basePayment := week.totalVisitCount * avgPaymentPerVisit
      let bcbsPct := week.bcbsChargesPct
      let aetnaPct := week.aetnaChargesPct
      let otherPct := 1 - bcbsPct - aetnaPct
      let payerAdjustment :=
        bcbsPct * (5 / 4) + aetnaPct * (6 / 5) + otherPct * (19 / 20)
      basePayment * max (1 / 2) payerAdjustment
    trainStats :=
      { avgCollectionRate := avgCollectionRate
        avgPaymentPerVisit := avgPaymentPerVisit
        avgChargesPerVisit := avgChargesPerVisit
        avgBcbsPct := avgBcbsPct
        avgAetnaPct := avgAetnaPct } }

/-- One model's test-set evaluation.  Only `mae` and `rSquared` are read by
the selection step; the remaining metric fields are carried along. -/
structure EvaluationResult where
  mae : ℚ
  rmse : ℚ
  mape : ℚ
  rSquared : ℚ
  accuracy : ℚ
  bias : ℚ
  predictions : List ℚ
  modelName : String
deriving DecidableEq

/-- One step of the best-model reduction: the candidate replaces the
incumbent when it has strictly lower MAE, or when its MAE is within $100 of
the incumbent's and its R² is strictly higher. -/
def selectStep (best current : EvaluationResult) : EvaluationResult :=
  if current.mae < best.mae then current
  else if |current.mae - best.mae| < 100 ∧ best.rSquared < current.rSquared then current
  else best

/-- `results.reduce(...)` of `evaluateModels`: a left fold of `selectStep`
seeded with the first result (`reduce` on an empty array throws, hence
`Option`). -/
def selectBestModel (results : List EvaluationResult) : Option EvaluationResult :=
  match results with
  | [] => none
  | h :: t => some (t.foldl selectStep h)

/-- One classified week. -/
structure PerformanceRecord where
  weekKey : String
  year : ℤ
  week : String
  actualPayments : ℚ
  predictedPayments : ℚ
  absoluteError : ℚ
  percentError : ℚ
  performanceDiagnostic : String
  originalData : WeeklyAggregate
deriving DecidableEq

/-- The winning model's formula re-derived from its name and applied to every
feature row (`classifyPerformance`'s dispatch).  Any unrecognized name falls
through to the Visit-Based formula. -/
def classifyPredictions (modelName : String) (stats : TrainStats)
    (features : List FeatureRow) : List ℚ :=
  if modelName = "Visit-Based" then
    features.map fun week => week.totalVisitCount * stats.avgPaymentPerVisit
  else if modelName = "Business Logic" then
    features.map fun week => week.totalChargeAmount * stats.avgCollectionRate
  else if modelName = "Multi-Factor" then
    features.map fun week =>
      week.totalChargeAmount * jsOr week.weightedAvgCollectionPct stats.avgCollectionRate * (6 / 10)
        + week.totalVisitCount * stats.avgPaymentPerVisit * (4 / 10)
  else if modelName = "Payer-Weighted" then
    features.map fun week =>
      let basePayment := week.totalVisitCount * stats.avgPaymentPerVisit
      let bcbsPct := week.bcbsChargesPct
      let aetnaPct := week.aetnaChargesPct
      let otherPct := 1 - bcbsPct - aetnaPct
      let payerAdjustment := bcbsPct * (5 / 4) + aetnaPct * (6 / 5) + otherPct * (19 / 20)
      basePayment * max (1 / 2) payerAdjustment
  else
    features.map fun week => week.totalVisitCount * stats.avgPaymentPerVisit

/-- Classification of one week against its prediction: percent error
(`0` when the actual is not positive) and the ±2.5% diagnostic. -/
def classifyWeek (week : FeatureRow) (predicted : ℚ) : PerformanceRecord :=
  let actual := week.totalPayments
  let percentError := if 0 < actual then (predicted - actual) / actual else 0
  { weekKey := week.weekKey
    year := week.year
    week := week.week
    actualPayments := actual
    predictedPayments := predicted
    absoluteError := |actual - predicted|
    percentError := percentError
    performanceDiagnostic :=
      if percentError < -(1 / 40) then "Under Performed"
      else if (1 / 40) < percentError then "Over Performed"
      else "Average Performance"
    originalData := week.originalData }

/-- `classifyPerformance` (taking the winning model's name in place of the
full evaluation record): the dispatched predictions paired pointwise with the
full feature sequence. -/
def classifyPerformance (features : List FeatureRow) (modelName : String)
    (stats : TrainStats) : List PerformanceRecord :=
  List.zipWith classifyWeek features (classifyPredictions modelName stats features)

/-! ## Concrete sample data used by witnesses and counterexamples -/

/-- An all-zero weekly aggregate, used to populate back-references of
hand-built feature rows. -/
def aggDefault : WeeklyAggregate :=
  { year := 0, week := "", weekKey := "", totalPayments := 0, totalChargeAmount := 0,
    totalVisitCount := 0, weightedAvgCollectionPct := 0, avgPaymentPerVisit := 0,
    pctVisitsWithLabs := 0, bcbsCharges := 0, bcbsVisits := 0, bcbsCollectionPct := 0,
    aetnaCharges := 0, aetnaVisits := 0, aetnaCollectionPct := 0, selfPayCharges := 0,
    selfPayVisits := 0, selfPayCollectionPct := 0, commercialCharges := 0,
    commercialVisits := 0, detailRecords := [] }

/-- A feature row with the fields the models and the classifier read. -/
def mkRow (year : ℤ) (week : String) (pay charge visits collPct apv bcbs aetna : ℚ) :
    FeatureRow :=
  { weekKey := toString year ++ "-" ++ week, year := year, week := week,
    totalPayments := pay, totalChargeAmount := charge, totalVisitCount := visits,
    weightedAvgCollectionPct := collPct, avgPaymentPerVisit := apv,
    pctVisitsWithLabs := 0, chargesPerVisit := 0, collectionEfficiency := collPct,
    bcbsChargesPct := bcbs, aetnaChargesPct := aetna, selfPayChargesPct := 0,
    commercialChargesPct := 0, highValuePayerPct := bcbs + aetna,
    originalData := aggDefault }

/-- An all-zero performance record (`getD` default). -/
def perfDefault : PerformanceRecord :=
  { weekKey := "", year := 0, week := "", actualPayments := 0, predictedPayments := 0,
    absoluteError := 0, percentError := 0, performanceDiagnostic := "",
    originalData := aggDefault }

/-- The numeric part of a week label (`"W10" ↦ 10`), following the spec's
words: week ordering is *natural chronological* ordering of the `(year,
week-label)` pair, the week label standing for its week number. -/
def weekNumber (w : String) : ℕ := digitsToNat (w.toList.filter Char.isDigit)

/-- Natural chronological order on feature rows, following the spec's words
(`(year, week) ≤ (year, week)` "in natural chronological order"); to be
compared with the implementation order `fLe`. -/
def specNaturalChronLe (a b : FeatureRow) : Prop :=
  a.year < b.year ∨ (a.year = b.year ∧ weekNumber a.week ≤ weekNumber b.week)

instance : DecidableRel specNaturalChronLe := fun a b => by
  unfold specNaturalChronLe; infer_instance

/-! ## Helper lemmas -/

theorem mem_zipWith_split {α β γ : Type} {f : α → β → γ} :
    ∀ {l1 : List α} {l2 : List β} {c : γ},
      c ∈ List.zipWith f l1 l2 → ∃ a b, a ∈ l1 ∧ b ∈ l2 ∧ c = f a b := by
  intro l1
  induction l1 with
  | nil => intro l2 c hc; simp at hc
  | cons a as ih =>
    intro l2 c hc
    cases l2 with
    | nil => simp at hc
    | cons b bs =>
      rcases List.mem_cons.mp hc with h | h
      · exact ⟨a, b, List.mem_cons_self a as, List.mem_cons_self b bs, h⟩
      · obtain ⟨x, y, hx, hy, hxy⟩ := ih h
        exact ⟨x, y, List.mem_cons_of_mem a hx, List.mem_cons_of_mem b hy, hxy⟩

/-- Field-level description of `classifyWeek` for a week with a non-negative
actual: the percent-error formula and the three diagnostic bands. -/
theorem classifyWeek_spec (w : FeatureRow) (p : ℚ) (hw : 0 ≤ w.totalPayments) :
    ((classifyWeek w p).percentError =
        if (classifyWeek w p).actualPayments = 0 then 0
        else ((classifyWeek w p).predictedPayments - (classifyWeek w p).actualPayments) /
          (classifyWeek w p).actualPayments)
      ∧ ((classifyWeek w p).performanceDiagnostic = "Under Performed" ↔
          (classifyWeek w p).percentError < -(1 / 40))
      ∧ ((classifyWeek w p).performanceDiagnostic = "Over Performed" ↔
          (1 / 40) < (classifyWeek w p).percentError)
      ∧ ((classifyWeek w p).performanceDiagnostic = "Average Performance" ↔
          -(1 / 40) ≤ (classifyWeek w p).percentError ∧
            (classifyWeek w p).percentError ≤ (1 / 40)) := by
  have hact : (classifyWeek w p).actualPayments = w.totalPayments := rfl
  have hpred : (classifyWeek w p).predictedPayments = p := rfl
  have hpe : (classifyWeek w p).percentError =
      if 0 < w.totalPayments then (p - w.totalPayments) / w.totalPayments else 0 := rfl
  have hdx : (classifyWeek w p).performanceDiagnostic =
      if (classifyWeek w p).percentError < -(1 / 40) then "Under Performed"
      else if (1 / 40) < (classifyWeek w p).percentError then "Over Performed"
      else "Average Performance" := rfl
  refine ⟨?_, ?_, ?_, ?_⟩
  · rw [hpe, hact, hpred]
    rcases eq_or_lt_of_le hw with h | h
    · simp [← h]
    · simp [h, ne_of_gt h]
  · by_cases h1 : (classifyWeek w p).percentError < -(1 / 40)
    · rw [hdx, if_pos h1]
      exact ⟨fun _ => h1, fun _ => rfl⟩
    · by_cases h2 : (1 / 40 : ℚ) < (classifyWeek w p).percentError
      · rw [hdx, if_neg h1, if_pos h2]
        exact iff_of_false (by decide) h1
      · rw [hdx, if_neg h1, if_neg h2]
        exact iff_of_false (by decide) h1
  · by_cases h1 : (classifyWeek w p).percentError < -(1 / 40)
    · rw [hdx, if_pos h1]
      exact iff_of_false (by decide) (by linarith)
    · by_cases h2 : (1 / 40 : ℚ) < (classifyWeek w p).percentError
      · rw [hdx, if_neg h1, if_pos h2]
        exact ⟨fun _ => h2, fun _ => rfl⟩
      · rw [hdx, if_neg h1, if_neg h2]
        exact iff_of_false (by decide) h2
  · by_cases h1 : (classifyWeek w p).percentError < -(1 / 40)
    · rw [hdx, if_pos h1]
      exact iff_of_false (by decide) (fun h => absurd h1 (not_lt.mpr h.1))
    · by_cases h2 : (1 / 40 : ℚ) < (classifyWeek w p).percentError
      · rw [hdx, if_neg h1, if_pos h2]
        exact iff_of_false (by decide) (fun h => absurd h2 (not_lt.mpr h.2))
      · rw [hdx, if_neg h1, if_neg h2]
        exact iff_of_true rfl ⟨by linarith, by linarith⟩

/-! ## Claim C1 -/

/-- C1: for every week in the full feature sequence, the Performance
Classifier computes `percentError = (predicted − actual) / actual` when the
actual is nonzero (actuals are non-negative sums of validated records) and `0`
when the actual is `0`, and assigns `"Under Performed"` iff
`percentError < −0.025`, `"Over Performed"` iff `percentError > 0.025`, and
`"Average Performance"` otherwise; a week with predicted 100 and actual 97.4
is `"Over Performed"`, while actual 97.6 is `"Average Performance"`. -/
theorem claim_C1 :
    (∀ (features : List FeatureRow) (modelName : String) (stats : TrainStats),
      (∀ w ∈ features, 0 ≤ w.totalPayments) →
      ∀ r ∈ classifyPerformance features modelName stats,
        (r.percentError =
          if r.actualPayments = 0 then 0
          else (r.predictedPayments - r.actualPayments) / r.actualPayments)
        ∧ (r.performanceDiagnostic = "Under Performed" ↔ r.percentError < -(1 / 40))
        ∧ (r.performanceDiagnostic = "Over Performed" ↔ (1 / 40) < r.percentError)
        ∧ (r.performanceDiagnostic = "Average Performance" ↔
            -(1 / 40) ≤ r.percentError ∧ r.percentError ≤ (1 / 40)))
    ∧ (classifyWeek (mkRow 2024 "W1" (974 / 10) 0 0 0 0 0 0) 100).performanceDiagnostic
        = "Over Performed"
    ∧ (classifyWeek (mkRow 2024 "W1" (976 / 10) 0 0 0 0 0 0) 100).performanceDiagnostic
        = "Average Performance" := by
  refine ⟨?_, ?_, ?_⟩
  · intro features modelName stats hnn r hr
    obtain ⟨w, p, hw, _, rfl⟩ := mem_zipWith_split hr
    exact classifyWeek_spec w p (hnn w hw)
  · norm_num [classifyWeek, mkRow]
  · norm_num [classifyWeek, mkRow]

/-- Witness for C1 at a concrete week: one row with actual 200 classified
under the Visit-Based formula with a training average payment per visit of 1
and 100 visits (predicted 100). -/
def statsW : TrainStats :=
  { avgCollectionRate := 0, avgPaymentPerVisit := 1, avgChargesPerVisit := 0,
    avgBcbsPct := 0, avgAetnaPct := 0 }

def rowW : FeatureRow := mkRow 2024 "W01" 200 0 100 0 0 0 0

def perfW : PerformanceRecord :=
  (classifyPerformance [rowW] "Visit-Based" statsW).getD 0 perfDefault

theorem claim_C1_witness :
    (perfW.percentError =
      if perfW.actualPayments = 0 then 0
      else (perfW.predictedPayments - perfW.actualPayments) / perfW.actualPayments)
    ∧ (perfW.performanceDiagnostic = "Under Performed" ↔ perfW.percentError < -(1 / 40))
    ∧ (perfW.performanceDiagnostic = "Over Performed" ↔ (1 / 40) < perfW.percentError)
    ∧ (perfW.performanceDiagnostic = "Average Performance" ↔
        -(1 / 40) ≤ perfW.percentError ∧ perfW.percentError ≤ (1 / 40)) :=
  claim_C1.1 [rowW] "Visit-Based" statsW
    (by intro w hw; rcases List.mem_singleton.mp hw with rfl; norm_num [rowW, mkRow])
    perfW
    (by
      have h : classifyPerformance [rowW] "Visit-Based" statsW =
          [classifyWeek rowW (rowW.totalVisitCount * statsW.avgPaymentPerVisit)] := by
        simp [classifyPerformance, classifyPredictions]
      rw [perfW, h]
      simp)

/-! ## Claim C2 -/

/-- C2: `trainCorrelations` is a function of the training prefix alone — two
inputs of equal size whose sorted feature sequences agree on the training
prefix (however their test rows differ, e.g. arbitrary changes to test rows'
`totalPayments`) receive identical `trainCorrelations` for the whole fixed
feature list. -/
theorem claim_C2 :
    ∀ (xs ys : List FeatureRow),
      xs.length = ys.length →
      (sortFeatures xs).take (trainSizeOf xs.length defaultTestSize) =
        (sortFeatures ys).take (trainSizeOf ys.length defaultTestSize) →
      (createTrainTestSplit xs defaultTestSize).trainCorrelations =
        (createTrainTestSplit ys defaultTestSize).trainCorrelations := by
  intro xs ys hlen hpre
  have hxs : (sortFeatures xs).length = xs.length :=
    (List.perm_insertionSort fLe xs).length_eq
  have hys : (sortFeatures ys).length = ys.length :=
    (List.perm_insertionSort fLe ys).length_eq
  have e1 : (createTrainTestSplit xs defaultTestSize).trainCorrelations =
      trainCorrelationsOf ((sortFeatures xs).take (trainSizeOf xs.length defaultTestSize)) := by
    simp [createTrainTestSplit, hxs]
  have e2 : (createTrainTestSplit ys defaultTestSize).trainCorrelations =
      trainCorrelationsOf ((sortFeatures ys).take (trainSizeOf ys.length defaultTestSize)) := by
    simp [createTrainTestSplit, hys]
  rw [e1, e2, hpre]

/-- Two-week input for the C2 witness: the second (test) week of `xsW` has
its `totalPayments` mutated in `ysW`; both sort to the same training
prefix. -/
def rowA : FeatureRow := mkRow 2023 "W01" 100 50 10 0 0 0 0

def rowB : FeatureRow := mkRow 2024 "W02" 200 80 20 0 0 0 0

def rowB2 : FeatureRow := mkRow 2024 "W02" 999 80 20 0 0 0 0

theorem claim_C2_witness :
    (createTrainTestSplit [rowA, rowB] defaultTestSize).trainCorrelations =
      (createTrainTestSplit [rowA, rowB2] defaultTestSize).trainCorrelations :=
  claim_C2 [rowA, rowB] [rowA, rowB2] rfl
    (by
      have hs1 : sortFeatures [rowA, rowB] = [rowA, rowB] := by
        norm_num [sortFeatures, List.insertionSort, List.orderedInsert, fLe,
          rowA, rowB, mkRow]
      have hs2 : sortFeatures [rowA, rowB2] = [rowA, rowB2] := by
        norm_num [sortFeatures, List.insertionSort, List.orderedInsert, fLe,
          rowA, rowB2, mkRow]
      have ht : trainSizeOf 2 defaultTestSize = 1 := by
        norm_num [trainSizeOf, defaultTestSize]
      have hl1 : ([rowA, rowB] : List FeatureRow).length = 2 := rfl
      have hl2 : ([rowA, rowB2] : List FeatureRow).length = 2 := rfl
      rw [hs1, hs2, hl1, hl2, ht]
      rfl)

/-! ## Claim C3 -/

/-- C3 counterexample: with the (year = 2024) week labels `"W2"` and `"W10"`,
the split puts `"W10"` (natural week 10) into `trainData` and `"W2"` (natural
week 2) into `testData` — the lexicographic label sort is not natural
chronological order, so the claimed invariant fails. -/
def rN2 : FeatureRow := mkRow 2024 "W2" 10 0 0 0 0 0 0

def rN10 : FeatureRow := mkRow 2024 "W10" 20 0 0 0 0 0 0

theorem claim_C3_counterexample :
    rN10 ∈ (createTrainTestSplit [rN2, rN10] defaultTestSize).trainData
    ∧ rN2 ∈ (createTrainTestSplit [rN2, rN10] defaultTestSize).testData
    ∧ ¬ specNaturalChronLe rN10 rN2 := by
  have hs : sortFeatures [rN2, rN10] = [rN10, rN2] := by
    norm_num [sortFeatures, List.insertionSort, List.orderedInsert, fLe,
      rN2, rN10, mkRow, strLe, charListLe]
    all_goals decide
  have ht : trainSizeOf 2 defaultTestSize = 1 := by
    norm_num [trainSizeOf, defaultTestSize]
  have h1 : (createTrainTestSplit [rN2, rN10] defaultTestSize).trainData = [rN10] := by
    simp [createTrainTestSplit, hs, ht]
  have h2 : (createTrainTestSplit [rN2, rN10] defaultTestSize).testData = [rN2] := by
    simp [createTrainTestSplit, hs, ht]
  refine ⟨by rw [h1]; exact List.mem_singleton.mpr rfl,
    by rw [h2]; exact List.mem_singleton.mpr rfl, ?_⟩
  intro h
  rcases h with h | ⟨_, h⟩
  · exact absurd h (by norm_num [rN10, rN2, mkRow])
  · have h10 : weekNumber (rN10.week) = 10 := by decide
    have h2w : weekNumber (rN2.week) = 2 := by decide
    rw [h10, h2w] at h
    omega

/-- C3 (amended): with the default `testSize = 0.2` the split sorts the rows,
returns the first `floor(n·(1−testSize))` as `trainData` and the remainder as
`testData`, and every training row precedes every test row in the *code's*
order — ascending year, then lexicographic week-label comparison (which
agrees with natural chronological order exactly when the labels sort
lexically like chronologically, e.g. zero-padded labels). -/
theorem claim_C3_amended :
    ∀ features : List FeatureRow,
      (createTrainTestSplit features defaultTestSize).trainData =
        (sortFeatures features).take (trainSizeOf features.length defaultTestSize)
      ∧ (createTrainTestSplit features defaultTestSize).testData =
        (sortFeatures features).drop (trainSizeOf features.length defaultTestSize)
      ∧ ∀ a ∈ (createTrainTestSplit features defaultTestSize).trainData,
          ∀ b ∈ (createTrainTestSplit features defaultTestSize).testData, fLe a b := by
  intro features
  have hlen : (sortFeatures features).length = features.length :=
    (List.perm_insertionSort fLe features).length_eq
  have e1 : (createTrainTestSplit features defaultTestSize).trainData =
      (sortFeatures features).take (trainSizeOf features.length defaultTestSize) := by
    simp [createTrainTestSplit, hlen]
  have e2 : (createTrainTestSplit features defaultTestSize).testData =
      (sortFeatures features).drop (trainSizeOf features.length defaultTestSize) := by
    simp [createTrainTestSplit, hlen]
  refine ⟨e1, e2, ?_⟩
  intro a ha b hb
  rw [e1] at ha
  rw [e2] at hb
  have hsorted : List.Pairwise fLe
      ((sortFeatures features).take (trainSizeOf features.length defaultTestSize) ++
        (sortFeatures features).drop (trainSizeOf features.length defaultTestSize)) := by
    rw [List.take_append_drop]
    exact List.sorted_insertionSort fLe features
  exact (List.pairwise_append.mp hsorted).2.2 a ha b hb

theorem claim_C3_witness : fLe rowA rowB := by
  have hs : sortFeatures [rowA, rowB] = [rowA, rowB] := by
    norm_num [sortFeatures, List.insertionSort, List.orderedInsert, fLe,
      rowA, rowB, mkRow]
  have ht : trainSizeOf 2 defaultTestSize = 1 := by
    norm_num [trainSizeOf, defaultTestSize]
  have h1 : (createTrainTestSplit [rowA, rowB] defaultTestSize).trainData = [rowA] := by
    simp [createTrainTestSplit, hs, ht]
  have h2 : (createTrainTestSplit [rowA, rowB] defaultTestSize).testData = [rowB] := by
    simp [createTrainTestSplit, hs, ht]
  exact (claim_C3_amended [rowA, rowB]).2.2 rowA
    (by rw [h1]; exact List.mem_singleton.mpr rfl) rowB
    (by rw [h2]; exact List.mem_singleton.mpr rfl)

/-! ## Claim C4 -/

/-- C4: for every test week, the Payer-Weighted model predicts
`base × max(0.5, adjustment)` with `base = totalVisitCount ×
trainAvgPaymentPerVisit` and `adjustment = bcbs%×1.25 + aetna%×1.20 +
other%×0.95` (`other% = 1 − bcbs% − aetna%`); in particular, when the base is
non-negative, the prediction is never below half of it. -/
theorem claim_C4 :
    ∀ trainData testData : List FeatureRow,
      List.Forall₂
        (fun (week : FeatureRow) (p : ℚ) =>
          p = week.totalVisitCount *
                (developModels trainData testData).trainStats.avgPaymentPerVisit *
              max (1 / 2)
                (week.bcbsChargesPct * (5 / 4) + week.aetnaChargesPct * (6 / 5) +
                  (1 - week.bcbsChargesPct - week.aetnaChargesPct) * (19 / 20))
          ∧ (0 ≤ week.totalVisitCount →
              0 ≤ (developModels trainData testData).trainStats.avgPaymentPerVisit →
              week.totalVisitCount *
                  (developModels trainData testData).trainStats.avgPaymentPerVisit / 2
                ≤ p))
        testData (developModels trainData testData).model4Predictions := by
  intro trainData testData
  simp only [developModels]
  rw [List.forall₂_map_right_iff]
  rw [List.forall₂_same]
  intro w _
  constructor
  · rfl
  · intro h1 h2
    have hb : 0 ≤ w.totalVisitCount * jsMean (trainData.map (·.avgPaymentPerVisit)) :=
      mul_nonneg h1 h2
    have hmax := mul_le_mul_of_nonneg_left
      (le_max_left (1 / 2 : ℚ)
        (w.bcbsChargesPct * (5 / 4) + w.aetnaChargesPct * (6 / 5) +
          (1 - w.bcbsChargesPct - w.aetnaChargesPct) * (19 / 20))) hb
    linarith

/-- Training and test weeks for the C4 witness: training average payment per
visit 100, a test week of 10 visits with no BCBS/Aetna share, so the
adjustment is 0.95 and the prediction `10 × 100 × 0.95 = 950 ≥ 500`. -/
def tW4 : FeatureRow := mkRow 2023 "W01" 0 0 0 0 100 0 0

def wW4 : FeatureRow := mkRow 2024 "W02" 0 0 10 0 0 0 0

theorem claim_C4_witness :
    ((developModels [tW4] [wW4]).model4Predictions.getD 0 0 =
      wW4.totalVisitCount * (developModels [tW4] [wW4]).trainStats.avgPaymentPerVisit *
        max (1 / 2)
          (wW4.bcbsChargesPct * (5 / 4) + wW4.aetnaChargesPct * (6 / 5) +
            (1 - wW4.bcbsChargesPct - wW4.aetnaChargesPct) * (19 / 20)))
    ∧ wW4.totalVisitCount * (developModels [tW4] [wW4]).trainStats.avgPaymentPerVisit / 2
        ≤ (developModels [tW4] [wW4]).model4Predictions.getD 0 0 := by
  have h := claim_C4 [tW4] [wW4]
  rcases List.forall₂_cons_left_iff.mp h with ⟨b, u, hp, hrest, heq⟩
  have hu : u = [] := by
    cases hrest; rfl
  rw [hu] at heq
  rw [heq]
  simp only [List.getD, List.getElem?_cons_zero, Option.getD_some]
  exact ⟨hp.1, hp.2 (by norm_num [wW4, mkRow])
    (by norm_num [developModels, jsMean, tW4, mkRow])⟩

/-! ## Claim C5 -/

/-- C5 counterexample: a test week whose own `weightedAvgCollectionPct` is `0`
(charge 100, no visits), trained on a week with collection rate `1/2`.  The
code's `week.weightedAvgCollectionPct || avgCollectionRate` falls back to the
*training average*, predicting `100 × 0.5 × 0.6 = 30`, whereas the claimed
formula `0.6 × charge × ownPct + 0.4 × visits × trainAvgPaymentPerVisit`
yields `0`. -/
def tW5 : FeatureRow := mkRow 2023 "W01" 0 0 0 (1 / 2) 0 0 0

def wW5 : FeatureRow := mkRow 2024 "W02" 0 100 0 0 0 0 0

theorem claim_C5_counterexample :
    (developModels [tW5] [wW5]).model3Predictions = [30]
    ∧ (6 / 10) * wW5.totalChargeAmount * wW5.weightedAvgCollectionPct
        + (4 / 10) * wW5.totalVisitCount *
            (developModels [tW5] [wW5]).trainStats.avgPaymentPerVisit = 0
    ∧ (30 : ℚ) ≠ 0 := by
  refine ⟨?_, ?_, by norm_num⟩
  · norm_num [developModels, jsMean, jsOr, tW5, wW5, mkRow]
  · norm_num [wW5, mkRow]

/-- C5 (amended): the Multi-Factor model predicts
`0.6 × totalChargeAmount × collectionRate + 0.4 × totalVisitCount ×
trainAvgPaymentPerVisit`, where `collectionRate` is the week's *own*
`weightedAvgCollectionPct` whenever that is nonzero, but falls back to the
training-average collection rate when the week's own rate is `0` (the `||`
fallback in the source). -/
theorem claim_C5_amended :
    ∀ trainData testData : List FeatureRow,
      List.Forall₂
        (fun (week : FeatureRow) (p : ℚ) =>
          (week.weightedAvgCollectionPct ≠ 0 →
            p = (6 / 10) * week.totalChargeAmount * week.weightedAvgCollectionPct
              + (4 / 10) * week.totalVisitCount *
                  (developModels trainData testData).trainStats.avgPaymentPerVisit)
          ∧ (week.weightedAvgCollectionPct = 0 →
            p = (6 / 10) * week.totalChargeAmount *
                  (developModels trainData testData).trainStats.avgCollectionRate
              + (4 / 10) * week.totalVisitCount *
                  (developModels trainData testData).trainStats.avgPaymentPerVisit))
        testData (developModels trainData testData).model3Predictions := by
  intro trainData testData
  simp only [developModels]
  rw [List.forall₂_map_right_iff]
  rw [List.forall₂_same]
  intro w _
  constructor
  · intro h
    rw [jsOr, if_neg h]
    ring
  · intro h
    rw [jsOr, if_pos h]
    ring

theorem claim_C5_witness :
    (developModels [tW5] [wW5]).model3Predictions.getD 0 0 =
      (6 / 10) * wW5.totalChargeAmount *
          (developModels [tW5] [wW5]).trainStats.avgCollectionRate
        + (4 / 10) * wW5.totalVisitCount *
            (developModels [tW5] [wW5]).trainStats.avgPaymentPerVisit := by
  have h := claim_C5_amended [tW5] [wW5]
  rcases List.forall₂_cons_left_iff.mp h with ⟨b, u, hp, hrest, heq⟩
  have hu : u = [] := by
    cases hrest; rfl
  rw [hu] at heq
  rw [heq]
  simp only [List.getD, List.getElem?_cons_zero, Option.getD_some]
  exact hp.2 (by norm_num [wW5, mkRow])

/-! ## Claim C6 -/

theorem selectStep_or (best cur : EvaluationResult) :
    selectStep best cur = best ∨ selectStep best cur = cur := by
  unfold selectStep
  split_ifs
  · exact Or.inr rfl
  · exact Or.inr rfl
  · exact Or.inl rfl

theorem foldl_selectStep_mem :
    ∀ (t : List EvaluationResult) (h : EvaluationResult),
      t.foldl selectStep h ∈ h :: t
  | [], _ => List.mem_singleton.mpr rfl
  | c :: t', h => by
    rw [List.foldl_cons]
    have IH := foldl_selectStep_mem t' (selectStep h c)
    rcases List.mem_cons.mp IH with he | ht
    · rcases selectStep_or h c with h1 | h1
      · rw [he, h1]
        exact List.mem_cons_self h (c :: t')
      · rw [he, h1]
        exact List.mem_cons_of_mem h (List.mem_cons_self c t')
    · exact List.mem_cons_of_mem h (List.mem_cons_of_mem c ht)

theorem foldl_selectStep_min (S : List EvaluationResult)
    (hgap : ∀ a ∈ S, ∀ b ∈ S, a = b ∨ 100 ≤ |a.mae - b.mae|) :
    ∀ (t : List EvaluationResult) (h : EvaluationResult), h ∈ S → (∀ a ∈ t, a ∈ S) →
      (t.foldl selectStep h).mae ≤ h.mae ∧ ∀ a ∈ t, (t.foldl selectStep h).mae ≤ a.mae
  | [], _, _, _ => ⟨le_refl _, by simp⟩
  | c :: t', h, hh, hsub => by
    have hc : c ∈ S := hsub c (List.mem_cons_self c t')
    have hsub2 : ∀ a ∈ t', a ∈ S := fun a ha => hsub a (List.mem_cons_of_mem c ha)
    have hstep_mae : (selectStep h c).mae ≤ h.mae ∧ (selectStep h c).mae ≤ c.mae := by
      unfold selectStep
      by_cases h1 : c.mae < h.mae
      · rw [if_pos h1]
        exact ⟨le_of_lt h1, le_refl _⟩
      · rw [if_neg h1]
        by_cases h2 : |c.mae - h.mae| < 100 ∧ h.rSquared < c.rSquared
        · rw [if_pos h2]
          rcases hgap h hh c hc with heq | hge
          · have hme : c.mae = h.mae := by rw [heq]
            exact ⟨le_of_eq hme, le_refl _⟩
          · rw [abs_sub_comm] at hge
            exact absurd h2.1 (not_lt.mpr hge)
        · rw [if_neg h2]
          exact ⟨le_refl _, not_lt.mp h1⟩
    have hSmem : selectStep h c ∈ S := by
      rcases selectStep_or h c with h1 | h1 <;> rw [h1] <;> assumption
    have IH := foldl_selectStep_min S hgap t' (selectStep h c) hSmem hsub2
    rw [List.foldl_cons]
    refine ⟨le_trans IH.1 hstep_mae.1, ?_⟩
    intro a ha
    rcases List.mem_cons.mp ha with rfl | ha2
    · exact le_trans IH.1 hstep_mae.2
    · exact IH.2 a ha2

/-- The four evaluation results of the C6 counterexample: each consecutive
pair is within $100 MAE with increasing R², so the fold hands the win down
the chain to the worst-MAE model. -/
def rA6 : EvaluationResult :=
  { mae := 0, rmse := 0, mape := 0, rSquared := 1 / 2, accuracy := 0, bias := 0,
    predictions := [], modelName := "Business Logic" }

def rB6 : EvaluationResult :=
  { mae := 90, rmse := 0, mape := 0, rSquared := 6 / 10, accuracy := 0, bias := 0,
    predictions := [], modelName := "Visit-Based" }

def rC6 : EvaluationResult :=
  { mae := 180, rmse := 0, mape := 0, rSquared := 7 / 10, accuracy := 0, bias := 0,
    predictions := [], modelName := "Multi-Factor" }

def rD6 : EvaluationResult :=
  { mae := 270, rmse := 0, mape := 0, rSquared := 8 / 10, accuracy := 0, bias := 0,
    predictions := [], modelName := "Payer-Weighted" }

/-- C6 counterexample: over these four results the reduction returns the
model with MAE $270 although a model with MAE $0 is present and the two
differ by $270 — far outside the $100 tie-break band — so the selection does
*not* return the lowest-MAE model (with the $100/R² exception) in general:
the $100 band is applied pairwise along the fold, and a chain of
within-$100 steps can walk arbitrarily far from the minimum. -/
theorem claim_C6_counterexample :
    selectBestModel [rA6, rB6, rC6, rD6] = some rD6
    ∧ rA6.mae < rD6.mae
    ∧ ¬ |rD6.mae - rA6.mae| < 100 := by
  refine ⟨?_, by norm_num [rA6, rD6], by norm_num [rA6, rD6]⟩
  norm_num [selectBestModel, selectStep, rA6, rB6, rC6, rD6]

/-- C6 (amended): the selection is the left fold of the pairwise rule
(candidate wins on strictly lower MAE, or on MAE within $100 and strictly
higher R²), seeded with the first result.  The selected model is always one
of the results, and whenever all pairwise MAE gaps between distinct results
are at least $100 — so the tie-break never fires — it is exactly a model of
minimal MAE.  When within-$100 chains exist the fold may return a model whose
MAE is not within $100 of the minimum. -/
theorem claim_C6_amended :
    ∀ (h : EvaluationResult) (t : List EvaluationResult) (r : EvaluationResult),
      selectBestModel (h :: t) = some r →
      r ∈ h :: t
      ∧ ((∀ a ∈ h :: t, ∀ b ∈ h :: t, a = b ∨ 100 ≤ |a.mae - b.mae|) →
          ∀ a ∈ h :: t, r.mae ≤ a.mae) := by
  intro h t r hsel
  have hr : r = t.foldl selectStep h := by
    have : selectBestModel (h :: t) = some (t.foldl selectStep h) := rfl
    rw [this] at hsel
    exact (Option.some.inj hsel).symm
  subst hr
  refine ⟨foldl_selectStep_mem t h, ?_⟩
  intro hgap a ha
  have hmin := foldl_selectStep_min (h :: t) hgap t h (List.mem_cons_self h t)
    (fun x hx => List.mem_cons_of_mem h hx)
  rcases List.mem_cons.mp ha with rfl | ha2
  · exact hmin.1
  · exact hmin.2 a ha2

theorem claim_C6_witness :
    rA6 ∈ [rA6, rC6] ∧ rA6.mae ≤ rC6.mae := by
  have hsel : selectBestModel [rA6, rC6] = some rA6 := by
    norm_num [selectBestModel, selectStep, rA6, rC6]
  have h := claim_C6_amended rA6 [rC6] rA6 hsel
  refine ⟨h.1, ?_⟩
  refine h.2 ?_ rC6 (List.mem_cons_of_mem rA6 (List.mem_cons_self rC6 []))
  intro a ha b hb
  rcases List.mem_cons.mp ha with rfl | ha2
  · rcases List.mem_cons.mp hb with rfl | hb2
    · exact Or.inl rfl
    · rcases List.mem_singleton.mp hb2 with rfl
      exact Or.inr (by norm_num [rA6, rC6])
  · rcases List.mem_singleton.mp ha2 with rfl
    rcases List.mem_cons.mp hb with rfl | hb2
    · exact Or.inr (by norm_num [rA6, rC6])
    · rcases List.mem_singleton.mp hb2 with rfl
      exact Or.inl rfl

/-! ## Claim C7 -/

/-- A header cell over which the keyword scan does not throw: anything but a
truthy number (`header.toLowerCase()` is a `TypeError` on a number). -/
def headerOkB : Cell → Bool
  | .num q => decide (q = 0)
  | _ => true

theorem assignColumns_ok :
    ∀ (headers : List Cell) (m : PartialColumnMap) (i : ℕ),
      (∀ c ∈ headers, headerOkB c = true) →
      ∃ m2, assignColumns m i headers = .ok m2
  | [], m, _, _ => ⟨m, rfl⟩
  | c :: rest, m, i, hok => by
    have hrest : ∀ x ∈ rest, headerOkB x = true :=
      fun x hx => hok x (List.mem_cons_of_mem c hx)
    cases c with
    | null =>
      simpa [assignColumns] using assignColumns_ok rest m (i + 1) hrest
    | num q =>
      have hq : q = 0 := by
        have := hok _ (List.mem_cons_self _ rest)
        simpa [headerOkB] using this
      simpa [assignColumns, hq] using assignColumns_ok rest m (i + 1) hrest
    | str s =>
      by_cases hs : s = ""
      · simpa [assignColumns, hs] using assignColumns_ok rest m (i + 1) hrest
      · simpa [assignColumns, hs] using
          assignColumns_ok rest (applyHeaderMatch m i (trimChars (toLowerChars s.toList)))
            (i + 1) hrest

theorem cleanLoop_validated :
    ∀ (rows : List (List Cell)) (cmap : ColumnMap) (y w p : Cell),
      ∀ r ∈ cleanLoop cmap rows y w p, validateRecord r = true
  | [], _, _, _, _ => by simp [cleanLoop]
  | row :: rest, cmap, y, w, p => by
    intro r hr
    simp only [cleanLoop] at hr
    generalize (if (rowGet row 0).notEmpty = true then rowGet row 0 else y) = y2 at hr
    generalize (if (rowGet row 1).notEmpty = true then rowGet row 1 else w) = w2 at hr
    generalize (if (rowGet row 2).notEmpty = true then rowGet row 2 else p) = p2 at hr
    split at hr
    · split at hr
      · rcases List.mem_cons.mp hr with rfl | hr2
        · assumption
        · exact cleanLoop_validated rest cmap _ _ _ r hr2
      · exact cleanLoop_validated rest cmap _ _ _ r hr
    · exact cleanLoop_validated rest cmap _ _ _ r hr

theorem validateRecord_bounds (r : BillingRecord) (h : validateRecord r = true) :
    0 ≤ r.totalPayments ∧ 0 ≤ r.chargeAmount ∧ 0 ≤ r.visitCount
      ∧ 0 ≤ r.collectionPct ∧ r.collectionPct ≤ 5 := by
  simp only [validateRecord, Bool.and_eq_true, decide_eq_true_eq] at h
  tauto

/-- The two-row input whose second row carries a negative `totalPayments`
(column J), used to show the `analyzer.js` extractor accepts what
`validateRecord` would reject. -/
def rawNeg : List (List Cell) :=
  [[Cell.str "Year"],
   [Cell.num 2024, Cell.str "W01", Cell.str "2-BCBS", Cell.str "E1", Cell.null,
    Cell.null, Cell.null, Cell.null, Cell.null, Cell.num (-5)]]

/-- C7 counterexample: (i) a one-row table (fewer than 2 rows) makes the
statistical engine's extraction return `ok []`, not an error — the
fewer-than-2-rows failure exists only in the `analyzer.js` variant; (ii) that
variant in turn accepts a record with `totalPayments = −5`, so "accepted only
if `totalPayments ≥ 0` …" fails for it.  Neither extractor satisfies the
claim as a whole. -/
theorem claim_C7_counterexample :
    loadCleanRows [[Cell.str "Year"]] = .ok []
    ∧ (cleanExcelData rawNeg).toOption.map (fun recs => recs.map (·.totalPayments))
        = some [-5] := by
  constructor
  · have hcm : createColumnMap [Cell.str "Year"] =
        .ok (colFinalize (applyHeaderMatch {} 0 (trimChars (toLowerChars "Year".toList)))) := by
      rfl
    simp [loadCleanRows, hcm, cleanLoop]
  · norm_num [cleanExcelData, rawNeg, cleanLoopJs, rowGet, Cell.notEmpty, Cell.truthy,
      parseNumber, parseInteger, jsTrunc, Except.toOption]
    decide

/-- C7 (amended): the statistical engine's extraction fails exactly on an
empty table (where `createColumnMap` crashes on the undefined header row) or
on a header row containing a truthy non-string; in particular a one-row table
is *not* an error.  Under a well-formed header row it never throws, and a
parsed row is kept only if it passes `validateRecord` (so every accepted
record has `totalPayments, chargeAmount, visitCount ≥ 0` and
`0 ≤ collectionPct ≤ 5`), failing rows being silently dropped.  The
fewer-than-2-rows error of the claim exists only in the `analyzer.js`
variant (`cleanExcelData`), which performs no record validation. -/
theorem claim_C7_amended :
    (∃ e, loadCleanRows [] = .error e)
    ∧ (∀ (headers : List Cell) (rows : List (List Cell)),
        (∀ c ∈ headers, headerOkB c = true) →
        ∃ recs, loadCleanRows (headers :: rows) = .ok recs
          ∧ ∀ r ∈ recs, 0 ≤ r.totalPayments ∧ 0 ≤ r.chargeAmount ∧ 0 ≤ r.visitCount
              ∧ 0 ≤ r.collectionPct ∧ r.collectionPct ≤ 5)
    ∧ (∀ raw : List (List Cell), (∃ e, cleanExcelData raw = .error e) ↔ raw.length < 2) := by
  refine ⟨⟨_, rfl⟩, ?_, ?_⟩
  · intro headers rows hok
    obtain ⟨m2, hm⟩ := assignColumns_ok headers {} 0 hok
    have hcm : createColumnMap headers = .ok (colFinalize m2) := by
      simp [createColumnMap, hm]
    refine ⟨cleanLoop (colFinalize m2) rows .null .null .null, ?_, ?_⟩
    · simp [loadCleanRows, hcm]
    · intro r hr
      exact validateRecord_bounds r (cleanLoop_validated rows (colFinalize m2) _ _ _ r hr)
  · intro raw
    by_cases h : raw.length < 2 <;> simp [cleanExcelData, h]

theorem claim_C7_witness :
    ∃ recs, loadCleanRows [[Cell.str "Year"]] = Except.ok recs
      ∧ ∀ r ∈ recs, 0 ≤ r.totalPayments ∧ 0 ≤ r.chargeAmount ∧ 0 ≤ r.visitCount
          ∧ 0 ≤ r.collectionPct ∧ r.collectionPct ≤ 5 :=
  claim_C7_amended.2.1 [Cell.str "Year"] []
    (by
      intro c hc
      rcases List.mem_singleton.mp hc with rfl
      rfl)

/-! ## Claim C8 -/

/-- C8: zero-guards of aggregation and feature engineering — a week with no
visits gets `avgPaymentPerVisit = 0` and `chargesPerVisit = 0`; a week with
no charges gets `weightedAvgCollectionPct = 0` and all payer-mix percentage
features `0`.  (In this exact-rational model the guarded conditionals are
the whole story: no division is ever evaluated with a zero denominator, which
is the `NaN`/`Infinity` freedom the claim states.) -/
theorem claim_C8 :
    ∀ (year : ℤ) (week : String) (recs : List BillingRecord),
      ((aggregateGroup year week recs).totalVisitCount = 0 →
        (aggregateGroup year week recs).avgPaymentPerVisit = 0
        ∧ (engineerFeature (aggregateGroup year week recs)).chargesPerVisit = 0
        ∧ (engineerFeature (aggregateGroup year week recs)).avgPaymentPerVisit = 0
        ∧ (aggregateGroup year week recs).pctVisitsWithLabs = 0)
      ∧ ((aggregateGroup year week recs).totalChargeAmount = 0 →
        (aggregateGroup year week recs).weightedAvgCollectionPct = 0
        ∧ (engineerFeature (aggregateGroup year week recs)).bcbsChargesPct = 0
        ∧ (engineerFeature (aggregateGroup year week recs)).aetnaChargesPct = 0
        ∧ (engineerFeature (aggregateGroup year week recs)).selfPayChargesPct = 0
        ∧ (engineerFeature (aggregateGroup year week recs)).commercialChargesPct = 0
        ∧ (engineerFeature (aggregateGroup year week recs)).highValuePayerPct = 0) := by
  intro year week recs
  constructor
  · intro h
    simp only [aggregateGroup, engineerFeature] at h ⊢
    simp [h]
  · intro h
    simp only [aggregateGroup, engineerFeature] at h ⊢
    simp [h]

theorem claim_C8_witness :
    (aggregateGroup 2024 "W01" []).avgPaymentPerVisit = 0
    ∧ (engineerFeature (aggregateGroup 2024 "W01" [])).chargesPerVisit = 0
    ∧ (engineerFeature (aggregateGroup 2024 "W01" [])).avgPaymentPerVisit = 0
    ∧ (aggregateGroup 2024 "W01" []).pctVisitsWithLabs = 0 :=
  (claim_C8 2024 "W01" []).1 (by simp [aggregateGroup, sumBy])

/-! ## Claim C9 -/

theorem sum_four_filters (recs : List BillingRecord)
    (hpos : ∀ r ∈ recs, 0 ≤ r.chargeAmount) :
    sumBy (recs.filter fun r => r.payer = Cell.str "2-BCBS") (·.chargeAmount)
      + sumBy (recs.filter fun r => r.payer = Cell.str "17-AETNA") (·.chargeAmount)
      + sumBy (recs.filter fun r => r.payer = Cell.str "1-SELF PAY") (·.chargeAmount)
      + sumBy (recs.filter fun r => r.payer = Cell.str "5-COMMERCIAL") (·.chargeAmount)
      ≤ sumBy recs (·.chargeAmount) := by
  induction recs with
  | nil => simp [sumBy]
  | cons r rest ih =>
    have hr : 0 ≤ r.chargeAmount := hpos r (List.mem_cons_self r rest)
    have ih2 := ih fun x hx => hpos x (List.mem_cons_of_mem r hx)
    simp only [sumBy] at ih2 ⊢
    by_cases h1 : r.payer = Cell.str "2-BCBS"
    · have d1 : decide (r.payer = Cell.str "2-BCBS") = true := by rw [h1]; decide
      have d2 : decide (r.payer = Cell.str "17-AETNA") = false := by rw [h1]; decide
      have d3 : decide (r.payer = Cell.str "1-SELF PAY") = false := by rw [h1]; decide
      have d4 : decide (r.payer = Cell.str "5-COMMERCIAL") = false := by rw [h1]; decide
      simp [List.filter_cons, d1, d2, d3, d4]
      linarith
    · by_cases h2 : r.payer = Cell.str "17-AETNA"
      · have d1 : decide (r.payer = Cell.str "2-BCBS") = false := by rw [h2]; decide
        have d2 : decide (r.payer = Cell.str "17-AETNA") = true := by rw [h2]; decide
        have d3 : decide (r.payer = Cell.str "1-SELF PAY") = false := by rw [h2]; decide
        have d4 : decide (r.payer = Cell.str "5-COMMERCIAL") = false := by rw [h2]; decide
        simp [List.filter_cons, d1, d2, d3, d4]
        linarith
      · by_cases h3 : r.payer = Cell.str "1-SELF PAY"
        · have d1 : decide (r.payer = Cell.str "2-BCBS") = false := by rw [h3]; decide
          have d2 : decide (r.payer = Cell.str "17-AETNA") = false := by rw [h3]; decide
          have d3 : decide (r.payer = Cell.str "1-SELF PAY") = true := by rw [h3]; decide
          have d4 : decide (r.payer = Cell.str "5-COMMERCIAL") = false := by rw [h3]; decide
          simp [List.filter_cons, d1, d2, d3, d4]
          linarith
        · by_cases h4 : r.payer = Cell.str "5-COMMERCIAL"
          · have d1 : decide (r.payer = Cell.str "2-BCBS") = false := by rw [h4]; decide
            have d2 : decide (r.payer = Cell.str "17-AETNA") = false := by rw [h4]; decide
            have d3 : decide (r.payer = Cell.str "1-SELF PAY") = false := by rw [h4]; decide
            have d4 : decide (r.payer = Cell.str "5-COMMERCIAL") = true := by rw [h4]; decide
            simp [List.filter_cons, d1, d2, d3, d4]
            linarith
          · have d1 : decide (r.payer = Cell.str "2-BCBS") = false := decide_eq_false h1
            have d2 : decide (r.payer = Cell.str "17-AETNA") = false := decide_eq_false h2
            have d3 : decide (r.payer = Cell.str "1-SELF PAY") = false := decide_eq_false h3
            have d4 : decide (r.payer = Cell.str "5-COMMERCIAL") = false := decide_eq_false h4
            simp [List.filter_cons, d1, d2, d3, d4]
            linarith

/-- C9: for a week aggregated from records with non-negative charge amounts
(which validation guarantees), the four per-payer charge sub-sums — taken
over the pairwise-disjoint exact payer-code matches — never exceed the week's
`totalChargeAmount`, and consequently the four payer-mix percentage features
sum to at most 1 ("Other" being the implicit remainder; in exact arithmetic
no `ε` slack is needed). -/
theorem claim_C9 :
    ∀ (year : ℤ) (week : String) (recs : List BillingRecord),
      (∀ r ∈ recs, 0 ≤ r.chargeAmount) →
      (aggregateGroup year week recs).bcbsCharges
        + (aggregateGroup year week recs).aetnaCharges
        + (aggregateGroup year week recs).selfPayCharges
        + (aggregateGroup year week recs).commercialCharges
        ≤ (aggregateGroup year week recs).totalChargeAmount
      ∧ (engineerFeature (aggregateGroup year week recs)).bcbsChargesPct
        + (engineerFeature (aggregateGroup year week recs)).aetnaChargesPct
        + (engineerFeature (aggregateGroup year week recs)).selfPayChargesPct
        + (engineerFeature (aggregateGroup year week recs)).commercialChargesPct ≤ 1 := by
  intro year week recs hpos
  have hsum := sum_four_filters recs hpos
  constructor
  · simpa [aggregateGroup] using hsum
  · simp only [engineerFeature, aggregateGroup]
    by_cases hT : 0 < sumBy recs (·.chargeAmount)
    · simp only [if_pos hT]
      rw [div_add_div_same, div_add_div_same, div_add_div_same]
      exact (div_le_one hT).mpr hsum
    · simp [if_neg hT]

/-- A BCBS record with charge 60 and a commercial record with charge 40. -/
def recB9 : BillingRecord :=
  { year := Cell.num 2024, week := Cell.str "W01", payer := Cell.str "2-BCBS",
    emGroup := Cell.str "E1", paymentsPctOfTotal := 0, avgPayment := 0, avgEMWeight := 0,
    chargeAmount := 60, collectionPct := 1, totalPayments := 50, visitCount := 3,
    visitsWithLabCount := 0, pctVisitsWithLabs := 0, paymentPerVisit := 0 }

def recC9 : BillingRecord :=
  { year := Cell.num 2024, week := Cell.str "W01", payer := Cell.str "5-COMMERCIAL",
    emGroup := Cell.str "E1", paymentsPctOfTotal := 0, avgPayment := 0, avgEMWeight := 0,
    chargeAmount := 40, collectionPct := 1, totalPayments := 30, visitCount := 2,
    visitsWithLabCount := 0, pctVisitsWithLabs := 0, paymentPerVisit := 0 }

theorem claim_C9_witness :
    (aggregateGroup 2024 "W01" [recB9, recC9]).bcbsCharges
      + (aggregateGroup 2024 "W01" [recB9, recC9]).aetnaCharges
      + (aggregateGroup 2024 "W01" [recB9, recC9]).selfPayCharges
      + (aggregateGroup 2024 "W01" [recB9, recC9]).commercialCharges
      ≤ (aggregateGroup 2024 "W01" [recB9, recC9]).totalChargeAmount
    ∧ (engineerFeature (aggregateGroup 2024 "W01" [recB9, recC9])).bcbsChargesPct
      + (engineerFeature (aggregateGroup 2024 "W01" [recB9, recC9])).aetnaChargesPct
      + (engineerFeature (aggregateGroup 2024 "W01" [recB9, recC9])).selfPayChargesPct
      + (engineerFeature (aggregateGroup 2024 "W01" [recB9, recC9])).commercialChargesPct
      ≤ 1 :=
  claim_C9 2024 "W01" [recB9, recC9]
    (by
      intro r hrm
      rcases List.mem_cons.mp hrm with rfl | hrm2
      · norm_num [recB9]
      · rcases List.mem_singleton.mp hrm2 with rfl
        norm_num [recC9])

/-! ## Claim C10 -/

/-- C10 (implicit): the classifier's dispatch on the winning model's name is
total — for any name other than the four known model names it still produces
one prediction per week, silently falling back to the Visit-Based formula
`totalVisitCount × trainAvgPaymentPerVisit`. -/
theorem claim_C10 :
    ∀ (modelName : String) (stats : TrainStats) (features : List FeatureRow),
      modelName ≠ "Visit-Based" → modelName ≠ "Business Logic" →
      modelName ≠ "Multi-Factor" → modelName ≠ "Payer-Weighted" →
      classifyPredictions modelName stats features =
        features.map (fun week => week.totalVisitCount * stats.avgPaymentPerVisit)
      ∧ (classifyPredictions modelName stats features).length = features.length
      ∧ (classifyPerformance features modelName stats).length = features.length := by
  intro mn stats features h1 h2 h3 h4
  have he : classifyPredictions mn stats features =
      features.map fun week => week.totalVisitCount * stats.avgPaymentPerVisit := by
    simp [classifyPredictions, h1, h2, h3, h4]
  refine ⟨he, by simp [he], ?_⟩
  simp [classifyPerformance, he]

theorem claim_C10_witness :
    classifyPredictions "Gradient Boosting" statsW [rowW] =
      [rowW].map (fun week => week.totalVisitCount * statsW.avgPaymentPerVisit)
    ∧ (classifyPredictions "Gradient Boosting" statsW [rowW]).length = 1
    ∧ (classifyPerformance [rowW] "Gradient Boosting" statsW).length = 1 :=
  claim_C10 "Gradient Boosting" statsW [rowW]
    (by decide) (by decide) (by decide) (by decide)

end RMT
